import Mathlib

/-!
# Focus / FocusWithin tracking hooks — shallow embedding

Embedding of `packages/react-interactions/events/src/dom/create-event-handle/Focus.js`.

Modelling conventions:
* DOM event targets are identified by `Nat` ids; the fields of a native event
  that the source reads (`type`, `key`, modifier flags, `target.nodeName`,
  `target.tagName`, `target.isContentEditable`) are carried in `InputEvent`.
* The module-level constant `isMac` (read from `navigator.platform`) is a
  `Bool` parameter of every function that depends on it.
* The module-level mutable `isGlobalFocusVisible` is threaded explicitly: the
  global handler takes the current value and returns the next one, and the
  per-tracker listeners take the snapshot current at the moment they run.
* Each event listener closure of the source becomes a pure transition
  function `state → state × callback-trace`.  Optional callbacks of the
  options object are modelled by presence flags (`hasOnFocus`, ...); the trace
  records, in order, exactly the callback invocations the listener performs.
* The `afterblur` document listener slot of `useFocusWithin` (one listener at
  most per event handle and target; `setListener` replaces, `setListener null`
  clears) is modelled by the boolean `afterBlurArmed` in the tracker state.
-/

/-- The fields of a native DOM event that `Focus.js` reads. -/
structure InputEvent where
  type : String
  key : String
  metaKey : Bool
  altKey : Bool
  ctrlKey : Bool
  targetNodeName : String
  targetTagName : String
  targetIsContentEditable : Bool
deriving DecidableEq, Repr

/-- `isValidKey` (Focus.js lines 98-101): a keydown counts as a visible-focus
signal unless meta is held, ctrl is held, or (on non-Mac platforms) alt is held. -/
def isValidKey (isMac : Bool) (e : InputEvent) : Bool :=
  !(e.metaKey || (!isMac && e.altKey) || e.ctrlKey)

/-- `isTextInput` (Focus.js lines 103-110), faithful to the source including
the misspelled string literal in its key comparison. -/
def isTextInput (e : InputEvent) : Bool :=
  if e.key = "Tab" || e.key = "Esacpe" then
    false
  else
    e.targetTagName = "INPUT" || e.targetTagName = "TEXTAREA" ||
      e.targetIsContentEditable

/-- `handleGlobalFocusVisibleEvent` (Focus.js lines 112-129): takes the current
value of the module-level `isGlobalFocusVisible` and returns its next value. -/
def handleGlobalFocusVisibleEvent (isMac : Bool) (isGlobalFocusVisible : Bool)
    (e : InputEvent) : Bool :=
  if e.type = "keydown" then
    if isValidKey isMac e then true else isGlobalFocusVisible
  else
    -- Safari calls mousemove/pointermove when you tab out of the active frame.
    if e.targetNodeName = "HTML" then isGlobalFocusVisible
    else false

/-- `handleFocusVisibleTargetEvents` (Focus.js lines 131-143): `some b` means
the listener invokes `callback(b)`; `none` means it invokes nothing. -/
def handleFocusVisibleTargetEvents (isMac : Bool) (e : InputEvent) : Option Bool :=
  if e.type = "keydown" then
    if isValidKey isMac e && !isTextInput e then some true else none
  else
    some false

/-- `isRelatedTargetWithin`s `focusWithinTarget` argument: either a Scope
instance exposing `containsNode` as a function, or a plain node with
`contains`.  The two containment predicates over target ids are supplied. -/
structure FocusWithinTarget where
  hasContainsNode : Bool
  containsNodeResult : Nat → Bool
  containsResult : Nat → Bool

/-- `isRelatedTargetWithin` (Focus.js lines 145-158): a null related target is
not contained; otherwise `containsNode` is used when it is a function, else
`contains`. -/
def isRelatedTargetWithin (focusWithinTarget : FocusWithinTarget)
    (relatedTarget : Option Nat) : Bool :=
  match relatedTarget with
  | none => false
  | some rt =>
    if focusWithinTarget.hasContainsNode then
      focusWithinTarget.containsNodeResult rt
    else
      focusWithinTarget.containsResult rt

/-- Per-tracker state of `useFocus` (`stateRef`, Focus.js lines 200-202). -/
structure FocusState where
  isFocused : Bool
  isFocusVisible : Bool
deriving DecidableEq, Repr

/-- Callback invocations observable from a `useFocus` tracker. -/
inductive FocusCallback where
  | onFocus
  | onBlur
  | onFocusChange (b : Bool)
  | onFocusVisibleChange (b : Bool)
deriving DecidableEq, Repr

/-- The options object of `useFocus`: the disabled flag plus presence flags
for each optional callback. -/
structure UseFocusOptions where
  disabled : Bool
  hasOnBlur : Bool
  hasOnFocus : Bool
  hasOnFocusChange : Bool
  hasOnFocusVisibleChange : Bool
deriving DecidableEq, Repr

/-- The callback passed by `useFocus` to `setFocusVisibleListeners`
(Focus.js lines 216-223). -/
def useFocusVisibleCallback (opts : UseFocusOptions) (st : FocusState)
    (isFocusVisible : Bool) : FocusState × List FocusCallback :=
  if st.isFocused && st.isFocusVisible != isFocusVisible then
    ({ st with isFocusVisible := isFocusVisible },
      if opts.hasOnFocusVisibleChange then
        [FocusCallback.onFocusVisibleChange isFocusVisible]
      else [])
  else
    (st, [])

/-- A device-input event (mousedown / pointerdown / touchstart / keydown) on
the `useFocus` target: `handleFocusVisibleTargetEvents` classifies it and, when
it produces a value, feeds it to the visible callback (Focus.js lines 160-170,
213-224).  Note: this path performs no `disabled` check. -/
def useFocusDeviceInputListener (isMac : Bool) (opts : UseFocusOptions)
    (e : InputEvent) (st : FocusState) : FocusState × List FocusCallback :=
  match handleFocusVisibleTargetEvents isMac e with
  | some b => useFocusVisibleCallback opts st b
  | none => (st, [])

/-- The `focusin` listener of `useFocus` (Focus.js lines 227-244).
`focusTarget` and `eventTarget` are the ids of the tracked element and of
`event.target`; `isGlobalFocusVisible` is the global snapshot at dispatch. -/
def useFocusFocusinListener (opts : UseFocusOptions)
    (focusTarget eventTarget : Nat) (isGlobalFocusVisible : Bool)
    (st : FocusState) : FocusState × List FocusCallback :=
  if opts.disabled then
    (st, [])
  else if !st.isFocused && focusTarget == eventTarget then
    let st' : FocusState := { isFocused := true, isFocusVisible := isGlobalFocusVisible }
    (st',
      (if opts.hasOnFocus then [FocusCallback.onFocus] else []) ++
      (if opts.hasOnFocusChange then [FocusCallback.onFocusChange true] else []) ++
      (if st'.isFocusVisible && opts.hasOnFocusVisibleChange then
        [FocusCallback.onFocusVisibleChange true]
      else []))
  else
    (st, [])

/-- The `focusout` listener of `useFocus` (Focus.js lines 247-264). -/
def useFocusFocusoutListener (opts : UseFocusOptions)
    (isGlobalFocusVisible : Bool) (st : FocusState) :
    FocusState × List FocusCallback :=
  if opts.disabled then
    (st, [])
  else if st.isFocused then
    let st' : FocusState := { isFocused := false, isFocusVisible := isGlobalFocusVisible }
    (st',
      (if opts.hasOnBlur then [FocusCallback.onBlur] else []) ++
      (if opts.hasOnFocusChange then [FocusCallback.onFocusChange false] else []) ++
      (if st'.isFocusVisible && opts.hasOnFocusVisibleChange then
        [FocusCallback.onFocusVisibleChange false]
      else []))
  else
    (st, [])

/-- Callback invocations observable from a `useFocusWithin` tracker. -/
inductive FocusWithinCallback where
  | onFocusWithin
  | onBlurWithin
  | onBeforeBlurWithin
  | onAfterBlurWithin
  | onFocusWithinChange (b : Bool)
  | onFocusWithinVisibleChange (b : Bool)
deriving DecidableEq, Repr

/-- The options object of `useFocusWithin`. -/
structure UseFocusWithinOptions where
  disabled : Bool
  hasOnAfterBlurWithin : Bool
  hasOnBeforeBlurWithin : Bool
  hasOnBlurWithin : Bool
  hasOnFocusWithin : Bool
  hasOnFocusWithinChange : Bool
  hasOnFocusWithinVisibleChange : Bool
deriving DecidableEq, Repr

/-- Per-tracker state of `useFocusWithin`: the `stateRef` pair plus whether an
`afterblur` listener is currently set on the document (the handle keeps at
most one listener per target; `setListener` with a new callback replaces the
old one and `setListener null` clears it, Focus.js lines 396-404). -/
structure FocusWithinState where
  isFocused : Bool
  isFocusVisible : Bool
  afterBlurArmed : Bool
deriving DecidableEq, Repr

/-- The callback passed by `useFocusWithin` to `setFocusVisibleListeners`
(Focus.js lines 323-330). -/
def useFocusWithinVisibleCallback (opts : UseFocusWithinOptions)
    (st : FocusWithinState) (isFocusVisible : Bool) :
    FocusWithinState × List FocusWithinCallback :=
  if st.isFocused && st.isFocusVisible != isFocusVisible then
    ({ st with isFocusVisible := isFocusVisible },
      if opts.hasOnFocusWithinVisibleChange then
        [FocusWithinCallback.onFocusWithinVisibleChange isFocusVisible]
      else [])
  else
    (st, [])

/-- A device-input event on the `useFocusWithin` target (Focus.js lines
319-331).  As in `useFocus`, no `disabled` check on this path. -/
def useFocusWithinDeviceInputListener (isMac : Bool)
    (opts : UseFocusWithinOptions) (e : InputEvent) (st : FocusWithinState) :
    FocusWithinState × List FocusWithinCallback :=
  match handleFocusVisibleTargetEvents isMac e with
  | some b => useFocusWithinVisibleCallback opts st b
  | none => (st, [])

/-- First conditional block of the `useFocusWithin` `focusin` listener
(Focus.js lines 339-348): acquire focus when blurred. -/
def useFocusWithinFocusinBlockA (opts : UseFocusWithinOptions)
    (isGlobalFocusVisible : Bool) (st : FocusWithinState) :
    FocusWithinState × List FocusWithinCallback :=
  if !st.isFocused then
    let stA := { st with isFocused := true, isFocusVisible := isGlobalFocusVisible }
    (stA,
      (if opts.hasOnFocusWithinChange then
        [FocusWithinCallback.onFocusWithinChange true]
      else []) ++
      (if stA.isFocusVisible && opts.hasOnFocusWithinVisibleChange then
        [FocusWithinCallback.onFocusWithinVisibleChange true]
      else []))
  else (st, [])

/-- Second conditional block of the `useFocusWithin` `focusin` listener
(Focus.js lines 349-354): promote visibility mid-focus. -/
def useFocusWithinFocusinBlockB (opts : UseFocusWithinOptions)
    (isGlobalFocusVisible : Bool) (st : FocusWithinState) :
    FocusWithinState × List FocusWithinCallback :=
  if !st.isFocusVisible && isGlobalFocusVisible then
    ({ st with isFocusVisible := isGlobalFocusVisible },
      if opts.hasOnFocusWithinVisibleChange then
        [FocusWithinCallback.onFocusWithinVisibleChange true]
      else [])
  else (st, [])

/-- The `focusin` listener of `useFocusWithin` (Focus.js lines 335-358): two
sequential conditional blocks mutating the state, then `onFocusWithin`. -/
def useFocusWithinFocusinListener (opts : UseFocusWithinOptions)
    (isGlobalFocusVisible : Bool) (st : FocusWithinState) :
    FocusWithinState × List FocusWithinCallback :=
  if opts.disabled then
    (st, [])
  else
    let rA := useFocusWithinFocusinBlockA opts isGlobalFocusVisible st
    let rB := useFocusWithinFocusinBlockB opts isGlobalFocusVisible rA.1
    (rB.1,
      rA.2 ++ rB.2 ++
        (if opts.hasOnFocusWithin then [FocusWithinCallback.onFocusWithin] else []))

/-- The `focusout` listener of `useFocusWithin` (Focus.js lines 362-383).
Note the stored `isFocusVisible` is read, not re-derived from the global
heuristic, and is left unchanged by this listener. -/
def useFocusWithinFocusoutListener (opts : UseFocusWithinOptions)
    (focusWithinTarget : FocusWithinTarget) (relatedTarget : Option Nat)
    (st : FocusWithinState) : FocusWithinState × List FocusWithinCallback :=
  if opts.disabled then
    (st, [])
  else if st.isFocused && !isRelatedTargetWithin focusWithinTarget relatedTarget then
    ({ st with isFocused := false },
      (if opts.hasOnFocusWithinChange then
        [FocusWithinCallback.onFocusWithinChange false]
      else []) ++
      (if st.isFocusVisible && opts.hasOnFocusWithinVisibleChange then
        [FocusWithinCallback.onFocusWithinVisibleChange false]
      else []) ++
      (if opts.hasOnBlurWithin then [FocusWithinCallback.onBlurWithin] else []))
  else
    (st, [])

/-- The `beforeblur` listener of `useFocusWithin` (Focus.js lines 388-407):
when `onBeforeBlurWithin` is present it is invoked and an `afterblur` listener
is (re)set on the document. -/
def useFocusWithinBeforeblurListener (opts : UseFocusWithinOptions)
    (st : FocusWithinState) : FocusWithinState × List FocusWithinCallback :=
  if opts.disabled then
    (st, [])
  else if opts.hasOnBeforeBlurWithin then
    ({ st with afterBlurArmed := true }, [FocusWithinCallback.onBeforeBlurWithin])
  else
    (st, [])

/-- An `afterblur` event on the document (Focus.js lines 396-404): when a
listener is armed it invokes `onAfterBlurWithin` (if present) and clears
itself; when none is armed nothing happens. -/
def useFocusWithinAfterblurListener (opts : UseFocusWithinOptions)
    (st : FocusWithinState) : FocusWithinState × List FocusWithinCallback :=
  if st.afterBlurArmed then
    ({ st with afterBlurArmed := false },
      if opts.hasOnAfterBlurWithin then
        [FocusWithinCallback.onAfterBlurWithin]
      else [])
  else
    (st, [])

/-!
## World model for `useFocusWithin` event sequences

A run threads the global `isGlobalFocusVisible` value and the tracker state
through a sequence of events and accumulates the callback trace.  A physical
browser event that reaches both the window-level capture listener and a
target-level listener is modelled as a `globalInput` step followed by the
corresponding tracker step (the window capture listener runs first).
-/

/-- One event of a `useFocusWithin` run. -/
inductive FWEvent where
  /-- A window-level input event seen by `handleGlobalFocusVisibleEvent`. -/
  | globalInput (e : InputEvent)
  /-- A `focusin` delivered to the tracker's subtree listener. -/
  | focusin
  /-- A `focusout` delivered to the tracker, with `relatedTarget`. -/
  | focusout (relatedTarget : Option Nat)
  /-- A `beforeblur` delivered to the tracker. -/
  | beforeblur
  /-- An `afterblur` delivered on the document. -/
  | afterblur
  /-- A device-input event delivered to the tracker's visible listeners. -/
  | deviceInput (e : InputEvent)
deriving Repr

/-- World state of a `useFocusWithin` run. -/
structure FWWorld where
  isGlobalFocusVisible : Bool
  state : FocusWithinState
  trace : List FocusWithinCallback
deriving DecidableEq, Repr

/-- One step of a `useFocusWithin` run. -/
def useFocusWithinStep (isMac : Bool) (opts : UseFocusWithinOptions)
    (t : FocusWithinTarget) (w : FWWorld) (ev : FWEvent) : FWWorld :=
  match ev with
  | FWEvent.globalInput e =>
    { w with isGlobalFocusVisible :=
        handleGlobalFocusVisibleEvent isMac w.isGlobalFocusVisible e }
  | FWEvent.focusin =>
    let r := useFocusWithinFocusinListener opts w.isGlobalFocusVisible w.state
    { w with state := r.1, trace := w.trace ++ r.2 }
  | FWEvent.focusout rt =>
    let r := useFocusWithinFocusoutListener opts t rt w.state
    { w with state := r.1, trace := w.trace ++ r.2 }
  | FWEvent.beforeblur =>
    let r := useFocusWithinBeforeblurListener opts w.state
    { w with state := r.1, trace := w.trace ++ r.2 }
  | FWEvent.afterblur =>
    let r := useFocusWithinAfterblurListener opts w.state
    { w with state := r.1, trace := w.trace ++ r.2 }
  | FWEvent.deviceInput e =>
    let r := useFocusWithinDeviceInputListener isMac opts e w.state
    { w with state := r.1, trace := w.trace ++ r.2 }

/-- Run a `useFocusWithin` tracker over a sequence of events. -/
def useFocusWithinRun (isMac : Bool) (opts : UseFocusWithinOptions)
    (t : FocusWithinTarget) (w : FWWorld) : List FWEvent → FWWorld
  | [] => w
  | ev :: evs => useFocusWithinRun isMac opts t (useFocusWithinStep isMac opts t w ev) evs

/-- The initial tracker state (Focus.js lines 297-299) with no armed
`afterblur` listener. -/
def initialFocusWithinState : FocusWithinState :=
  { isFocused := false, isFocusVisible := false, afterBlurArmed := false }

/-- A keydown on an INPUT element with key "Escape" and no modifiers. -/
def escapeOnInputEvent : InputEvent :=
  { type := "keydown", key := "Escape", metaKey := false, altKey := false,
    ctrlKey := false, targetNodeName := "INPUT", targetTagName := "INPUT",
    targetIsContentEditable := false }

/-- C1: the claim says `isTextInput` returns `false` for a keydown with key
"Escape" on an INPUT element.  The source compares the key against the
misspelled literal "Esacpe", so the Escape exclusion never matches and the
function returns `true` on that input: the code contradicts the spec's clear
intent (the spec itself flags the misspelling as a likely defect).  For
contrast, the Tab exclusion does work. -/
theorem isTextInput_escape_on_input_evaluates_true :
    isTextInput escapeOnInputEvent = true ∧
    isTextInput { escapeOnInputEvent with key := "Tab" } = false ∧
    isTextInput { escapeOnInputEvent with key := "Esacpe" } = false := by
  refine ⟨?_, ?_, ?_⟩ <;> decide

/-- A mousedown event on a DIV element, no modifiers. -/
def mousedownOnDivEvent : InputEvent :=
  { type := "mousedown", key := "", metaKey := false, altKey := false,
    ctrlKey := false, targetNodeName := "DIV", targetTagName := "DIV",
    targetIsContentEditable := false }

/-- `useFocus` options with every optional callback supplied. -/
def allFocusCallbacks (disabled : Bool) : UseFocusOptions :=
  { disabled := disabled, hasOnBlur := true, hasOnFocus := true,
    hasOnFocusChange := true, hasOnFocusVisibleChange := true }

/-- `useFocusWithin` options with every optional callback supplied. -/
def allFocusWithinCallbacks (disabled : Bool) : UseFocusWithinOptions :=
  { disabled := disabled, hasOnAfterBlurWithin := true,
    hasOnBeforeBlurWithin := true, hasOnBlurWithin := true,
    hasOnFocusWithin := true, hasOnFocusWithinChange := true,
    hasOnFocusWithinVisibleChange := true }

/-- C3: characterization of the `useFocus` `focusin` listener.  When not
disabled, blurred, and the event target is the tracked element, the state
becomes focused with `isFocusVisible` taken from the global snapshot, and
(with all callbacks supplied) exactly `onFocus`, `onFocusChange true`, and —
only when the snapshot is true — `onFocusVisibleChange true` fire, in that
order.  When any precondition fails the state is unchanged and no callback
fires: the disabled and already-focused no-ops hold for arbitrary event
targets — equal to the tracked element or not — and the target-mismatch
no-op for any distinct event target. -/
theorem useFocus_focusin_characterization (o : UseFocusOptions)
    (g v : Bool) (tgt evTgt : Nat) (st : FocusState) :
    (useFocusFocusinListener (allFocusCallbacks false) tgt tgt g ⟨false, v⟩ =
      (⟨true, g⟩,
        [FocusCallback.onFocus, FocusCallback.onFocusChange true] ++
          (if g then [FocusCallback.onFocusVisibleChange true] else []))) ∧
    (o.disabled = false →
      (useFocusFocusinListener o tgt tgt g ⟨false, v⟩).1 = ⟨true, g⟩) ∧
    (useFocusFocusinListener { o with disabled := true } tgt evTgt g st = (st, [])) ∧
    (useFocusFocusinListener o tgt evTgt g ⟨true, v⟩ = (⟨true, v⟩, [])) ∧
    (tgt ≠ evTgt →
      useFocusFocusinListener o tgt evTgt g ⟨false, v⟩ = (⟨false, v⟩, [])) := by
  refine ⟨?_, ?_, ?_, ?_, ?_⟩
  · cases g <;> simp [useFocusFocusinListener, allFocusCallbacks]
  · intro hd
    simp [useFocusFocusinListener, hd]
  · simp [useFocusFocusinListener]
  · simp [useFocusFocusinListener]
  · intro hne
    simp [useFocusFocusinListener, hne]

/-- Witness for C3 at concrete inputs: the target-mismatch no-op at distinct
targets, and the already-focused no-op at the same target. -/
theorem useFocus_focusin_characterization_witness :
    (0 : Nat) ≠ 1 ∧
    (useFocusFocusinListener (allFocusCallbacks false) 0 1 true ⟨false, false⟩ =
      (⟨false, false⟩, [])) ∧
    (useFocusFocusinListener (allFocusCallbacks false) 0 0 true ⟨true, false⟩ =
      (⟨true, false⟩, [])) :=
  ⟨by decide,
    (useFocus_focusin_characterization (allFocusCallbacks false)
      true false 0 1 ⟨false, false⟩).2.2.2.2 (by decide),
    (useFocus_focusin_characterization (allFocusCallbacks false)
      true false 0 0 ⟨true, false⟩).2.2.2.1⟩

/-- C4: characterization of the global focus-visible heuristic.  A keydown
sets the guess true exactly when no blocking modifier is held (meta false,
ctrl false, and alt false unless on a Mac-style platform), leaving it
unchanged otherwise; in particular a keydown with meta held leaves the guess
unchanged (never sets it true).  Any non-keydown event sets the guess false,
except that a target with nodeName "HTML" leaves it unchanged. -/
theorem handleGlobalFocusVisibleEvent_characterization (isMac g : Bool)
    (e f m : InputEvent) (hk : e.type = "keydown")
    (hf : f.type ≠ "keydown")
    (hmk : m.type = "keydown") (hmm : m.metaKey = true) :
    (handleGlobalFocusVisibleEvent isMac g e =
      if e.metaKey = false ∧ e.ctrlKey = false ∧ (isMac = true ∨ e.altKey = false)
      then true else g) ∧
    (handleGlobalFocusVisibleEvent isMac g m = g) ∧
    (handleGlobalFocusVisibleEvent isMac g f =
      if f.targetNodeName = "HTML" then g else false) := by
  refine ⟨?_, ?_, ?_⟩
  · obtain ⟨ty, k, mk, ak, ck, nn, tn, ce⟩ := e
    simp only [] at hk
    subst hk
    cases mk <;> cases ck <;> cases ak <;> cases isMac <;>
      simp [handleGlobalFocusVisibleEvent, isValidKey]
  · simp [handleGlobalFocusVisibleEvent, isValidKey, hmk, hmm]
  · simp [handleGlobalFocusVisibleEvent, hf]

/-- Witness for C4 at concrete inputs. -/
theorem handleGlobalFocusVisibleEvent_characterization_witness :
    handleGlobalFocusVisibleEvent false false
        { mousedownOnDivEvent with targetNodeName := "HTML" } =
      (if ({ mousedownOnDivEvent with targetNodeName := "HTML" }).targetNodeName = "HTML"
       then false else false) :=
  (handleGlobalFocusVisibleEvent_characterization false false
    { mousedownOnDivEvent with type := "keydown" }
    { mousedownOnDivEvent with targetNodeName := "HTML" }
    { mousedownOnDivEvent with type := "keydown", metaKey := true }
    rfl (by decide) rfl rfl).2.2

/-- C8: when the disabled flag is true at the moment a `focusin` or
`focusout` event fires, both trackers ignore the event entirely: the state is
unchanged and no callback is invoked. -/
theorem disabled_focus_events_ignored (o : UseFocusOptions)
    (ow : UseFocusWithinOptions) (g : Bool) (tgt evTgt : Nat)
    (st : FocusState) (stw : FocusWithinState) (t : FocusWithinTarget)
    (rt : Option Nat) :
    (useFocusFocusinListener { o with disabled := true } tgt evTgt g st = (st, [])) ∧
    (useFocusFocusoutListener { o with disabled := true } g st = (st, [])) ∧
    (useFocusWithinFocusinListener { ow with disabled := true } g stw = (stw, [])) ∧
    (useFocusWithinFocusoutListener { ow with disabled := true } t rt stw = (stw, [])) := by
  refine ⟨?_, ?_, ?_, ?_⟩ <;>
    simp [useFocusFocusinListener, useFocusFocusoutListener,
      useFocusWithinFocusinListener, useFocusWithinFocusoutListener]

/-- C9: the device-input visibility listeners are not guarded by the disabled
flag.  Focus is acquired while enabled (reachable state with
`isFocused = true`); after disabling, a mousedown on the target still flips
the stored visibility and fires `onFocusVisibleChange false`
(resp. `onFocusWithinVisibleChange false`) in both trackers. -/
theorem disabled_does_not_guard_visible_listeners :
    ((useFocusFocusinListener (allFocusCallbacks false)
        0 0 true ⟨false, false⟩).1 = ⟨true, true⟩) ∧
    (useFocusDeviceInputListener false (allFocusCallbacks true)
        mousedownOnDivEvent ⟨true, true⟩ =
      (⟨true, false⟩, [FocusCallback.onFocusVisibleChange false])) ∧
    ((useFocusWithinFocusinListener (allFocusWithinCallbacks false)
        true initialFocusWithinState).1 = ⟨true, true, false⟩) ∧
    (useFocusWithinDeviceInputListener false (allFocusWithinCallbacks true)
        mousedownOnDivEvent ⟨true, true, false⟩ =
      (⟨true, false, false⟩, [FocusWithinCallback.onFocusWithinVisibleChange false])) := by
  refine ⟨?_, ?_, ?_, ?_⟩ <;> decide

/-- A valid keydown (key "Tab", no modifiers) on the BODY element. -/
def tabKeydownEvent : InputEvent :=
  { type := "keydown", key := "Tab", metaKey := false, altKey := false,
    ctrlKey := false, targetNodeName := "BODY", targetTagName := "BODY",
    targetIsContentEditable := false }

/-- The same keydown with the control key held. -/
def ctrlKeydownEvent : InputEvent := { tabKeydownEvent with ctrlKey := true }

/-- A sample subtree target: a plain node (no `containsNode`) containing
exactly the element with id 2. -/
def sampleTarget : FocusWithinTarget :=
  { hasContainsNode := false, containsNodeResult := fun _ => false,
    containsResult := fun n => n == 2 }

/-- C5: characterization of the `useFocusWithin` `focusout` listener.  A null
related target is not contained; containment uses `containsNode` when the
target exposes it as a function and `contains` otherwise.  When the related
target is contained, nothing happens; when it is not and the tracker is
focused (all callbacks supplied, not disabled), the state becomes blurred and
exactly `onFocusWithinChange false`, then — only if the stored visibility was
true — `onFocusWithinVisibleChange false`, then `onBlurWithin` fire, in that
order. -/
theorem useFocusWithin_focusout_characterization (o : UseFocusWithinOptions)
    (t : FocusWithinTarget) (rtIn rtOut : Option Nat) (v a : Bool)
    (stw : FocusWithinState) (r : Nat) (p q : Nat → Bool)
    (hin : isRelatedTargetWithin t rtIn = true)
    (hout : isRelatedTargetWithin t rtOut = false) :
    (isRelatedTargetWithin t none = false) ∧
    (isRelatedTargetWithin ⟨true, p, q⟩ (some r) = p r) ∧
    (isRelatedTargetWithin ⟨false, p, q⟩ (some r) = q r) ∧
    (useFocusWithinFocusoutListener o t rtIn stw = (stw, [])) ∧
    (useFocusWithinFocusoutListener (allFocusWithinCallbacks false) t rtOut
        ⟨true, v, a⟩ =
      (⟨false, v, a⟩,
        [FocusWithinCallback.onFocusWithinChange false] ++
          (if v then [FocusWithinCallback.onFocusWithinVisibleChange false] else []) ++
          [FocusWithinCallback.onBlurWithin])) := by
  refine ⟨rfl, rfl, rfl, ?_, ?_⟩
  · simp [useFocusWithinFocusoutListener, hin]
  · cases v <;> simp [useFocusWithinFocusoutListener, allFocusWithinCallbacks, hout]

/-- Witness for C5 at concrete inputs. -/
theorem useFocusWithin_focusout_characterization_witness :
    isRelatedTargetWithin sampleTarget (some 2) = true ∧
    isRelatedTargetWithin sampleTarget (some 5) = false ∧
    useFocusWithinFocusoutListener (allFocusWithinCallbacks false) sampleTarget
        (some 5) ⟨true, true, false⟩ =
      (⟨false, true, false⟩,
        [FocusWithinCallback.onFocusWithinChange false] ++
          (if true then [FocusWithinCallback.onFocusWithinVisibleChange false] else []) ++
          [FocusWithinCallback.onBlurWithin]) :=
  ⟨by decide, by decide,
    (useFocusWithin_focusout_characterization (allFocusWithinCallbacks false)
      sampleTarget (some 2) (some 5) true false ⟨true, true, false⟩ 0
      (fun _ => false) (fun _ => false) (by decide) (by decide)).2.2.2.2⟩

/-- C7: the target-level visibility classifier and the `useFocus` visible
callback.  A keydown never produces `callback(false)`; it produces
`callback(true)` exactly when the key is valid and the target is not a text
input; consequently a keydown never demotes the stored visibility.  A valid
non-text-input keydown while focused and not visible fires
`onFocusVisibleChange true` exactly once; a keydown with ctrl held fires
nothing; and no device-input event fires any visibility callback while the
tracker is blurred. -/
theorem useFocus_keydown_visibility (isMac v : Bool) (o : UseFocusOptions)
    (e ek ec : InputEvent) (st : FocusState)
    (hk : e.type = "keydown") (hv : isValidKey isMac e = true)
    (ht : isTextInput e = false)
    (hek : ek.type = "keydown")
    (hck : ec.type = "keydown") (hcc : ec.ctrlKey = true) :
    (handleFocusVisibleTargetEvents isMac ek ≠ some false) ∧
    (handleFocusVisibleTargetEvents isMac ek = some true ↔
      (isValidKey isMac ek = true ∧ isTextInput ek = false)) ∧
    ((useFocusDeviceInputListener isMac o ek st).1.isFocusVisible = st.isFocusVisible ∨
      (useFocusDeviceInputListener isMac o ek st).1.isFocusVisible = true) ∧
    (useFocusDeviceInputListener isMac { o with hasOnFocusVisibleChange := true }
        e ⟨true, false⟩ =
      (⟨true, true⟩, [FocusCallback.onFocusVisibleChange true])) ∧
    (useFocusDeviceInputListener isMac o ec st = (st, [])) ∧
    (∀ f : InputEvent,
      useFocusDeviceInputListener isMac o f ⟨false, v⟩ = (⟨false, v⟩, [])) := by
  refine ⟨?_, ?_, ?_, ?_, ?_, ?_⟩
  · simp only [handleFocusVisibleTargetEvents, hek, if_true, ite_true, if_pos]
    split <;> simp
  · cases hval : isValidKey isMac ek <;> cases htext : isTextInput ek <;>
      simp [handleFocusVisibleTargetEvents, hek, hval, htext]
  · cases hval : isValidKey isMac ek <;> cases htext : isTextInput ek <;>
      · simp only [useFocusDeviceInputListener, handleFocusVisibleTargetEvents,
          hek, hval, htext, useFocusVisibleCallback, Bool.not_true,
          Bool.not_false, Bool.and_true, Bool.and_false, Bool.true_and,
          Bool.false_and, if_true, if_false, ite_true, ite_false]
        try simp
        try (split <;> simp_all)
  · simp [useFocusDeviceInputListener, handleFocusVisibleTargetEvents, hk, hv,
      ht, useFocusVisibleCallback]
  · simp [useFocusDeviceInputListener, handleFocusVisibleTargetEvents, hck,
      isValidKey, hcc]
  · intro f
    unfold useFocusDeviceInputListener
    cases hcl : handleFocusVisibleTargetEvents isMac f <;>
      simp [useFocusVisibleCallback]

/-- Witness for C7 at concrete inputs. -/
theorem useFocus_keydown_visibility_witness :
    useFocusDeviceInputListener false
        { allFocusCallbacks false with hasOnFocusVisibleChange := true }
        tabKeydownEvent ⟨true, false⟩ =
      (⟨true, true⟩, [FocusCallback.onFocusVisibleChange true]) :=
  (useFocus_keydown_visibility false false (allFocusCallbacks false)
    tabKeydownEvent tabKeydownEvent ctrlKeydownEvent ⟨false, false⟩
    rfl (by decide) (by decide) rfl rfl (by decide)).2.2.2.1

/-- A pointerdown event on a DIV element. -/
def pointerdownOnDivEvent : InputEvent :=
  { mousedownOnDivEvent with type := "pointerdown" }

/-- Pointer-driven focus, then a keydown elsewhere flips the global guess to
true, then focus leaves the subtree. -/
def staleVisibilityEvents : List FWEvent :=
  [FWEvent.globalInput pointerdownOnDivEvent, FWEvent.focusin,
   FWEvent.globalInput tabKeydownEvent, FWEvent.focusout none]

/-- C2 counterexample: the claim says the `useFocusWithin` blur transition
re-reads `isGlobalFocusVisible`.  In this run the global guess is `true` at
the moment the blur edge fires (the trace shows the edge fired:
`onFocusWithinChange false` then `onBlurWithin`), yet the stored
`isFocusVisible` stays `false` — it is not re-derived from the global
snapshot. -/
theorem useFocusWithin_blur_keeps_stale_visibility :
    ((useFocusWithinRun false (allFocusWithinCallbacks false) sampleTarget
        ⟨true, initialFocusWithinState, []⟩ staleVisibilityEvents).trace =
      [FocusWithinCallback.onFocusWithinChange true,
       FocusWithinCallback.onFocusWithin,
       FocusWithinCallback.onFocusWithinChange false,
       FocusWithinCallback.onBlurWithin]) ∧
    ((useFocusWithinRun false (allFocusWithinCallbacks false) sampleTarget
        ⟨true, initialFocusWithinState, []⟩ staleVisibilityEvents).isGlobalFocusVisible
      = true) ∧
    ((useFocusWithinRun false (allFocusWithinCallbacks false) sampleTarget
        ⟨true, initialFocusWithinState, []⟩ staleVisibilityEvents).state.isFocusVisible
      = false) := by
  refine ⟨?_, ?_, ?_⟩ <;> decide

/-- C2 (amended): both `useFocus` edges re-derive the stored `isFocusVisible`
from the global heuristic at the moment the edge fires, and so does the
`useFocusWithin` focus edge; the `useFocusWithin` blur transition, however,
uses the previously stored value and never changes `isFocusVisible` (it does
not re-read the global heuristic). -/
theorem focus_edge_visibility_snapshots (o : UseFocusOptions)
    (ow : UseFocusWithinOptions) (g v a : Bool) (tgt : Nat)
    (t : FocusWithinTarget) (rt : Option Nat) (stw : FocusWithinState)
    (hd : o.disabled = false) (hdw : ow.disabled = false) :
    ((useFocusFocusinListener o tgt tgt g ⟨false, v⟩).1.isFocusVisible = g) ∧
    ((useFocusFocusoutListener o g ⟨true, v⟩).1.isFocusVisible = g) ∧
    ((useFocusWithinFocusinListener ow g ⟨false, v, a⟩).1.isFocusVisible = g) ∧
    ((useFocusWithinFocusoutListener ow t rt stw).1.isFocusVisible =
      stw.isFocusVisible) := by
  refine ⟨?_, ?_, ?_, ?_⟩
  · simp [useFocusFocusinListener, hd]
  · simp [useFocusFocusoutListener, hd]
  · cases g <;>
      simp [useFocusWithinFocusinListener, useFocusWithinFocusinBlockA,
        useFocusWithinFocusinBlockB, hdw]
  · unfold useFocusWithinFocusoutListener
    split_ifs <;> rfl

/-- Witness for the amended C2 at concrete inputs. -/
theorem focus_edge_visibility_snapshots_witness :
    (useFocusWithinFocusoutListener (allFocusWithinCallbacks false) sampleTarget
        none ⟨true, false, false⟩).1.isFocusVisible =
      (⟨true, false, false⟩ : FocusWithinState).isFocusVisible :=
  (focus_edge_visibility_snapshots (allFocusCallbacks false)
    (allFocusWithinCallbacks false) true false false 0 sampleTarget none
    ⟨true, false, false⟩ rfl rfl).2.2.2

/-- C6: the before-blur / after-blur pairing.  Each `beforeblur` (with
`onBeforeBlurWithin` supplied, not disabled) invokes `onBeforeBlurWithin` and
arms the one-shot document listener; an `afterblur` with an armed listener
invokes `onAfterBlurWithin` once and disarms it; an `afterblur` with no armed
listener does nothing; and two `beforeblur` events in succession followed by
`afterblur` events produce `onAfterBlurWithin` exactly once — the second
registration replaces the first. -/
theorem useFocusWithin_beforeblur_afterblur_pairing (c1 c2 c3 c4 : Bool)
    (st : FocusWithinState) (f v g : Bool) :
    (useFocusWithinBeforeblurListener ⟨false, true, true, c1, c2, c3, c4⟩ st =
      ({ st with afterBlurArmed := true },
        [FocusWithinCallback.onBeforeBlurWithin])) ∧
    (useFocusWithinAfterblurListener ⟨false, true, true, c1, c2, c3, c4⟩
        ⟨f, v, true⟩ =
      (⟨f, v, false⟩, [FocusWithinCallback.onAfterBlurWithin])) ∧
    (useFocusWithinAfterblurListener ⟨false, true, true, c1, c2, c3, c4⟩
        ⟨f, v, false⟩ = (⟨f, v, false⟩, [])) ∧
    ((useFocusWithinRun false ⟨false, true, true, c1, c2, c3, c4⟩ sampleTarget
        ⟨g, ⟨f, v, false⟩, []⟩
        [FWEvent.beforeblur, FWEvent.beforeblur, FWEvent.afterblur,
         FWEvent.afterblur]).trace =
      [FocusWithinCallback.onBeforeBlurWithin,
       FocusWithinCallback.onBeforeBlurWithin,
       FocusWithinCallback.onAfterBlurWithin]) :=
  ⟨rfl, rfl, rfl, rfl⟩

/-- `focusin` block A leaves the armed `afterblur` slot unchanged. -/
theorem useFocusWithinFocusinBlockA_armed (o : UseFocusWithinOptions)
    (g : Bool) (st : FocusWithinState) :
    (useFocusWithinFocusinBlockA o g st).1.afterBlurArmed = st.afterBlurArmed := by
  unfold useFocusWithinFocusinBlockA
  split_ifs <;> rfl

/-- `focusin` block B leaves the armed `afterblur` slot unchanged. -/
theorem useFocusWithinFocusinBlockB_armed (o : UseFocusWithinOptions)
    (g : Bool) (st : FocusWithinState) :
    (useFocusWithinFocusinBlockB o g st).1.afterBlurArmed = st.afterBlurArmed := by
  unfold useFocusWithinFocusinBlockB
  split_ifs <;> rfl

/-- `focusin` block A never emits `onAfterBlurWithin`. -/
theorem useFocusWithinFocusinBlockA_trace (o : UseFocusWithinOptions)
    (g : Bool) (st : FocusWithinState) :
    FocusWithinCallback.onAfterBlurWithin ∉ (useFocusWithinFocusinBlockA o g st).2 := by
  unfold useFocusWithinFocusinBlockA
  split_ifs <;> simp

/-- `focusin` block B never emits `onAfterBlurWithin`. -/
theorem useFocusWithinFocusinBlockB_trace (o : UseFocusWithinOptions)
    (g : Bool) (st : FocusWithinState) :
    FocusWithinCallback.onAfterBlurWithin ∉ (useFocusWithinFocusinBlockB o g st).2 := by
  unfold useFocusWithinFocusinBlockB
  split_ifs <;> simp

/-- The `focusin` listener leaves the armed `afterblur` slot unchanged. -/
theorem useFocusWithinFocusinListener_armed (o : UseFocusWithinOptions)
    (g : Bool) (st : FocusWithinState) :
    (useFocusWithinFocusinListener o g st).1.afterBlurArmed = st.afterBlurArmed := by
  unfold useFocusWithinFocusinListener
  split
  · rfl
  · dsimp only
    rw [useFocusWithinFocusinBlockB_armed, useFocusWithinFocusinBlockA_armed]

/-- The `focusin` listener never emits `onAfterBlurWithin`. -/
theorem useFocusWithinFocusinListener_trace (o : UseFocusWithinOptions)
    (g : Bool) (st : FocusWithinState) :
    FocusWithinCallback.onAfterBlurWithin ∉ (useFocusWithinFocusinListener o g st).2 := by
  unfold useFocusWithinFocusinListener
  split
  · simp
  · dsimp only
    intro hmem
    rcases List.mem_append.1 hmem with h | h
    · rcases List.mem_append.1 h with h2 | h2
      · exact useFocusWithinFocusinBlockA_trace o g st h2
      · exact useFocusWithinFocusinBlockB_trace o g _ h2
    · revert h
      split <;> simp

/-- The `focusout` listener leaves the armed `afterblur` slot unchanged. -/
theorem useFocusWithinFocusoutListener_armed (o : UseFocusWithinOptions)
    (t : FocusWithinTarget) (rt : Option Nat) (st : FocusWithinState) :
    (useFocusWithinFocusoutListener o t rt st).1.afterBlurArmed = st.afterBlurArmed := by
  unfold useFocusWithinFocusoutListener
  split_ifs <;> rfl

/-- The `focusout` listener never emits `onAfterBlurWithin`. -/
theorem useFocusWithinFocusoutListener_trace (o : UseFocusWithinOptions)
    (t : FocusWithinTarget) (rt : Option Nat) (st : FocusWithinState) :
    FocusWithinCallback.onAfterBlurWithin ∉
      (useFocusWithinFocusoutListener o t rt st).2 := by
  unfold useFocusWithinFocusoutListener
  split_ifs <;> simp

/-- The device-input listener leaves the armed `afterblur` slot unchanged. -/
theorem useFocusWithinDeviceInputListener_armed (isMac : Bool)
    (o : UseFocusWithinOptions) (e : InputEvent) (st : FocusWithinState) :
    (useFocusWithinDeviceInputListener isMac o e st).1.afterBlurArmed =
      st.afterBlurArmed := by
  unfold useFocusWithinDeviceInputListener
  cases handleFocusVisibleTargetEvents isMac e with
  | none => rfl
  | some b =>
    dsimp only
    unfold useFocusWithinVisibleCallback
    split_ifs <;> rfl

/-- The device-input listener never emits `onAfterBlurWithin`. -/
theorem useFocusWithinDeviceInputListener_trace (isMac : Bool)
    (o : UseFocusWithinOptions) (e : InputEvent) (st : FocusWithinState) :
    FocusWithinCallback.onAfterBlurWithin ∉
      (useFocusWithinDeviceInputListener isMac o e st).2 := by
  unfold useFocusWithinDeviceInputListener
  cases handleFocusVisibleTargetEvents isMac e with
  | none => simp
  | some b =>
    dsimp only
    unfold useFocusWithinVisibleCallback
    split_ifs <;> simp

/-- With no `onBeforeBlurWithin` supplied, the `beforeblur` listener leaves
the armed `afterblur` slot unchanged. -/
theorem useFocusWithinBeforeblurListener_armed (o : UseFocusWithinOptions)
    (st : FocusWithinState) (hb : o.hasOnBeforeBlurWithin = false) :
    (useFocusWithinBeforeblurListener o st).1.afterBlurArmed = st.afterBlurArmed := by
  unfold useFocusWithinBeforeblurListener
  split_ifs with h1 h2
  · rfl
  · rw [hb] at h2
    exact absurd h2 (by decide)
  · rfl

/-- The `beforeblur` listener never emits `onAfterBlurWithin`. -/
theorem useFocusWithinBeforeblurListener_trace (o : UseFocusWithinOptions)
    (st : FocusWithinState) :
    FocusWithinCallback.onAfterBlurWithin ∉
      (useFocusWithinBeforeblurListener o st).2 := by
  unfold useFocusWithinBeforeblurListener
  split_ifs <;> simp

/-- An `afterblur` with no armed listener does nothing. -/
theorem useFocusWithinAfterblurListener_unarmed (o : UseFocusWithinOptions)
    (st : FocusWithinState) (ha : st.afterBlurArmed = false) :
    useFocusWithinAfterblurListener o st = (st, []) := by
  unfold useFocusWithinAfterblurListener
  simp [ha]

/-- One step of a run with no `onBeforeBlurWithin` keeps the `afterblur` slot
unarmed and adds no `onAfterBlurWithin` to the trace. -/
theorem useFocusWithinStep_no_spurious_afterBlur (isMac : Bool)
    (o : UseFocusWithinOptions) (t : FocusWithinTarget) (w : FWWorld)
    (ev : FWEvent) (hb : o.hasOnBeforeBlurWithin = false)
    (ha : w.state.afterBlurArmed = false)
    (htr : FocusWithinCallback.onAfterBlurWithin ∉ w.trace) :
    (useFocusWithinStep isMac o t w ev).state.afterBlurArmed = false ∧
    FocusWithinCallback.onAfterBlurWithin ∉ (useFocusWithinStep isMac o t w ev).trace := by
  cases ev with
  | globalInput e => exact ⟨ha, htr⟩
  | focusin =>
    dsimp [useFocusWithinStep]
    rw [useFocusWithinFocusinListener_armed]
    refine ⟨ha, ?_⟩
    intro hmem
    rcases List.mem_append.1 hmem with h | h
    · exact htr h
    · exact useFocusWithinFocusinListener_trace o _ _ h
  | focusout rt =>
    dsimp [useFocusWithinStep]
    rw [useFocusWithinFocusoutListener_armed]
    refine ⟨ha, ?_⟩
    intro hmem
    rcases List.mem_append.1 hmem with h | h
    · exact htr h
    · exact useFocusWithinFocusoutListener_trace o t rt _ h
  | beforeblur =>
    dsimp [useFocusWithinStep]
    rw [useFocusWithinBeforeblurListener_armed o _ hb]
    refine ⟨ha, ?_⟩
    intro hmem
    rcases List.mem_append.1 hmem with h | h
    · exact htr h
    · exact useFocusWithinBeforeblurListener_trace o _ h
  | afterblur =>
    dsimp [useFocusWithinStep]
    rw [useFocusWithinAfterblurListener_unarmed o _ ha]
    exact ⟨ha, by simpa using htr⟩
  | deviceInput e =>
    dsimp [useFocusWithinStep]
    rw [useFocusWithinDeviceInputListener_armed]
    refine ⟨ha, ?_⟩
    intro hmem
    rcases List.mem_append.1 hmem with h | h
    · exact htr h
    · exact useFocusWithinDeviceInputListener_trace isMac o e _ h

/-- A run with no `onBeforeBlurWithin` never emits `onAfterBlurWithin`. -/
theorem useFocusWithinRun_no_spurious_afterBlur (isMac : Bool)
    (o : UseFocusWithinOptions) (t : FocusWithinTarget)
    (hb : o.hasOnBeforeBlurWithin = false) :
    ∀ (evs : List FWEvent) (w : FWWorld),
      w.state.afterBlurArmed = false →
      FocusWithinCallback.onAfterBlurWithin ∉ w.trace →
      FocusWithinCallback.onAfterBlurWithin ∉
        (useFocusWithinRun isMac o t w evs).trace := by
  intro evs
  induction evs with
  | nil => intro w _ htr; exact htr
  | cons ev evs ih =>
    intro w ha htr
    have hstep := useFocusWithinStep_no_spurious_afterBlur isMac o t w ev hb ha htr
    exact ih _ hstep.1 hstep.2

/-- C10: a `useFocusWithin` tracker configured with `onAfterBlurWithin` but
without `onBeforeBlurWithin` never fires `onAfterBlurWithin`, for every event
sequence: the one-shot `afterblur` listener is armed only inside the branch
taken when `onBeforeBlurWithin` is present. -/
theorem useFocusWithin_no_afterBlur_without_beforeBlur
    (d c3 c4 c5 c6 g isMac : Bool) (t : FocusWithinTarget)
    (evs : List FWEvent) :
    FocusWithinCallback.onAfterBlurWithin ∉
      (useFocusWithinRun isMac ⟨d, true, false, c3, c4, c5, c6⟩ t
        ⟨g, initialFocusWithinState, []⟩ evs).trace := by
  exact useFocusWithinRun_no_spurious_afterBlur isMac
    ⟨d, true, false, c3, c4, c5, c6⟩ t rfl evs
    ⟨g, initialFocusWithinState, []⟩ rfl (by simp)
